import Mathlib

/-!
Verification of the poke state machine of the MaiBot anti-poke plugin
(src/anti_poke_plugin/plugin.py), as a shallow embedding.

Modelling conventions:
* Timestamps and durations (Python floats from time.time and the config)
  are modelled as integers; every claim is stated at integer-second
  granularity, and the code only subtracts and compares times.
* The module-level dict _POKE_STATE becomes the structure PokeState.
* Randomness is externalised: each call random.random() < p is replaced
  by an oracle boolean, and each call random.randint(a, b) consumes a
  natural-number sample and returns a + sample % (b - a + 1) when a ≤ b
  (the uniform image of the sample on the inclusive range), and raises
  (returns none) when a > b, exactly as Python randint does.
* Python exceptions are modelled with Except; because the Python state is
  a module global, an exception does not roll back earlier mutations, so
  the error value carries the partially mutated state.  The try/except
  wrapper of AntiPokeCommand.execute is the function runCatch.
* The asyncio decay task of poke_count_decay_task: one wake-up of the
  loop body is the function poke_count_decay_once; the task-handle
  lifecycle (create_task / done() / the except handler clearing the
  handle) is modelled as the small transition system DecaySys, where
  alive lists the identities of the currently running loop instances.
-/

namespace AntiPoke

/-- POKE_BACK_COOLDOWN = 10 (plugin.py line 33). -/
def POKE_BACK_COOLDOWN : Int := 10

/-- The configuration values read through the AntiPokeCommand properties
(SILENCE_DURATION_MIN/MAX, POKE_COUNT_MIN/MAX, DECAY_INTERVAL,
INSENSITIVITY_DURATION).  The two probabilities are not numeric here
because every use of them is a comparison with random.random(), which the
oracle below resolves. -/
structure PokeConfig where
  min_silence_time : Int
  max_silence_time : Int
  min_silence_counts : Int
  max_silence_counts : Int
  counts_decay_interval : Int
  insensitivity_duration : Int
deriving Repr, DecidableEq

/-- The module-level dict _POKE_STATE (plugin.py lines 20-31), without the
task handle and the lock, which are modelled separately. -/
structure PokeState where
  poke_count : Nat
  is_silent : Bool
  silence_start_time : Int
  last_poke_time : Int
  current_silence_duration : Int
  current_poke_threshold : Int
  last_poke_back_time : Int
  last_poke_received_time : Int
deriving Repr, DecidableEq

/-- The initial contents of _POKE_STATE: all counters and timers zero. -/
def initState : PokeState :=
  { poke_count := 0
    is_silent := false
    silence_start_time := 0
    last_poke_time := 0
    current_silence_duration := 0
    current_poke_threshold := 0
    last_poke_back_time := 0
    last_poke_received_time := 0 }

/-- The fields of an incoming event that AntiPokeCommand.execute reads:
whether message_info.message_id equals the string notice, the poking
id of the poking user, the id of the poked user from additional_config,
and the own account id of the bot. -/
structure PokeEvent where
  is_notice : Bool
  target_id : String
  poked_id : String
  self_id : String
deriving Repr, DecidableEq

/-- Oracle for the random draws of one execute call:
follow_roll stands for random.random() < FOLLOW_POKE_PROBABILITY,
reflect_roll for random.random() < REFLECT_POKE_PROBABILITY,
reply_roll for random.random() < 0.33, and seeds k is the pair of
randint samples consumed by the k-th call (0-based) to
generate_random_silence_params during this event. -/
structure RandOracle where
  follow_roll : Bool
  reflect_roll : Bool
  reply_roll : Bool
  seeds : Nat → Nat × Nat

/-- random.randint a b: uniform integer on the inclusive range when
a ≤ b (the sample taken modulo the range size), ValueError when a > b. -/
def randint (a b : Int) (sample : Nat) : Option Int :=
  if a ≤ b then some (a + (sample : Int) % (b - a + 1)) else none

/-- generate_random_silence_params (plugin.py lines 379-396): draws the
silence duration, stores it, then draws the poke threshold and stores it.
A ValueError from either randint leaves the earlier store in place (the
state is a module global), so the error case returns the partially
updated state together with the error message. -/
def generate_random_silence_params (cfg : PokeConfig) (seed : Nat × Nat)
    (st : PokeState) : PokeState × Option String :=
  match randint cfg.min_silence_time cfg.max_silence_time seed.1 with
  | none => (st, some "empty range for randrange()")
  | some d =>
    let st1 := { st with current_silence_duration := d }
    match randint cfg.min_silence_counts cfg.max_silence_counts seed.2 with
    | none => (st1, some "empty range for randrange()")
    | some c => ({ st1 with current_poke_threshold := c }, none)

/-- The externally visible outcome of one execute call (which branch
returned, and for poke or reply branches the payload). -/
inductive PokeAction where
  | silentIgnore
  | notNotice
  | followPoke (qq : String)
  | noFollow
  | insensitive
  | reflectPoke (qq : String)
  | reply (suffix : String)
  | noReply
  | failure (msg : String)
deriving Repr, DecidableEq

/-- The (success, message) pair AntiPokeCommand.execute returns, paired
with the abstracted action of the taken branch. -/
structure ExecResult where
  success : Bool
  message : String
  action : PokeAction
deriving Repr, DecidableEq

/-- The escalation suffix chosen when the threshold is reached
(plugin.py line 319). -/
def protestSuffix : String :=
  "（请一定要回答类似于“哼，我不理你了”的话语以表示对过多戳一戳的抗议）"

/-- The default suffix (plugin.py line 328). -/
def softSuffix : String :=
  "（这是QQ的一个功能，用于提及某人，但没那么明显）"

/-- can_poke_back computation (plugin.py lines 282-287): starts true,
forced false when last_poke_back_time > 0 and the elapsed time is below
POKE_BACK_COOLDOWN. -/
def can_poke_back (now last : Int) : Bool :=
  if last > 0 then
    if now - last < POKE_BACK_COOLDOWN then false else true
  else true

/-- _check_insensitivity_period (plugin.py lines 454-468). -/
def check_insensitivity_period (cfg : PokeConfig) (st : PokeState)
    (now : Int) : Bool :=
  if st.last_poke_received_time > 0 then
    if now - st.last_poke_received_time < cfg.insensitivity_duration then
      true
    else false
  else false

/-- Final decision of execute (plugin.py lines 330-344), after the
counter/threshold logic: reflect-poke when the reflect roll passed, the
state is not silent and the cooldown allows it; otherwise, when the
cooldown blocks and the state is not silent, reply with probability 0.33
else stay quiet; otherwise reply with the chosen suffix. -/
def executeFinal (rng : RandOracle) (ev : PokeEvent) (now : Int)
    (canBack : Bool) (suffix : String) (st : PokeState) :
    PokeState × ExecResult :=
  if rng.reflect_roll && !st.is_silent && canBack then
    ({ st with last_poke_back_time := now },
     ⟨true, "反戳一下", PokeAction.reflectPoke ev.target_id⟩)
  else if !canBack && !st.is_silent then
    if rng.reply_roll then
      (st, ⟨true, "选择言语回复", PokeAction.reply suffix⟩)
    else
      (st, ⟨true, "不想回复", PokeAction.noReply⟩)
  else
    (st, ⟨true, "选择言语回复", PokeAction.reply suffix⟩)

/-- Threshold comparison and escalation (plugin.py lines 318-328): on
reaching the threshold select the protest suffix, enter silence, stamp
silence_start_time, and regenerate the parameters of the next cycle (a
ValueError there escapes with the state mutated so far); otherwise select
the default suffix.  genIdx is the index of the next unused seed pair. -/
def executeDecide (cfg : PokeConfig) (rng : RandOracle) (ev : PokeEvent)
    (now : Int) (canBack : Bool) (genIdx : Nat) (st : PokeState) :
    Except (PokeState × String) (PokeState × ExecResult) :=
  if (st.poke_count : Int) ≥ st.current_poke_threshold then
    match generate_random_silence_params cfg (rng.seeds genIdx)
        { st with is_silent := true, silence_start_time := now } with
    | (st3, some e) => Except.error (st3, e)
    | (st3, none) =>
        Except.ok (executeFinal rng ev now canBack protestSuffix st3)
  else
    Except.ok (executeFinal rng ev now canBack softSuffix st)

/-- Lazy threshold generation (plugin.py lines 315-316): when
current_poke_threshold is 0 the parameters are generated before the
comparison, consuming seed pair 0. -/
def executeCount (cfg : PokeConfig) (rng : RandOracle) (ev : PokeEvent)
    (now : Int) (canBack : Bool) (st : PokeState) :
    Except (PokeState × String) (PokeState × ExecResult) :=
  if st.current_poke_threshold = 0 then
    match generate_random_silence_params cfg (rng.seeds 0) st with
    | (st2, some e) => Except.error (st2, e)
    | (st2, none) => executeDecide cfg rng ev now canBack 1 st2
  else
    executeDecide cfg rng ev now canBack 0 st

/-- Body of execute after the silence gate (plugin.py lines 272-344):
non-notice messages pass through; the cooldown flag is computed; pokes
aimed at a third party either follow-poke (updating last_poke_back_time)
or do nothing; the insensitivity window discards the event; otherwise
last_poke_received_time, last_poke_time are stamped and poke_count is
incremented, then the threshold logic runs. -/
def executeBody (cfg : PokeConfig) (rng : RandOracle) (ev : PokeEvent)
    (now : Int) (st : PokeState) :
    Except (PokeState × String) (PokeState × ExecResult) :=
  if ev.is_notice = false then
    Except.ok (st, ⟨true, "非戳一戳消息，无需使用命令", PokeAction.notNotice⟩)
  else
    let canBack := can_poke_back now st.last_poke_back_time
    if ev.poked_id ≠ ev.self_id then
      if rng.follow_roll then
        Except.ok ({ st with last_poke_back_time := now },
          ⟨true, "忍不住跟着戳了一下", PokeAction.followPoke ev.poked_id⟩)
      else
        Except.ok (st, ⟨true, "不是找自己的，也不打算跟戳", PokeAction.noFollow⟩)
    else if check_insensitivity_period cfg st now then
      Except.ok (st, ⟨true, "钝感中，勿扰", PokeAction.insensitive⟩)
    else
      executeCount cfg rng ev now canBack
        { st with
            last_poke_received_time := now
            last_poke_time := now
            poke_count := st.poke_count + 1 }

/-- execute before the try/except wrapper (plugin.py lines 261-344): the
silence gate first, then the body.  While silent, an unexpired window
intercepts the event outright; an expired window clears is_silent and
resets poke_count to 0 before the body runs. -/
def executeE (cfg : PokeConfig) (rng : RandOracle) (ev : PokeEvent)
    (now : Int) (st : PokeState) :
    Except (PokeState × String) (PokeState × ExecResult) :=
  if st.is_silent then
    if now - st.silence_start_time > st.current_silence_duration then
      executeBody cfg rng ev now
        { st with is_silent := false, poke_count := 0 }
    else
      Except.ok (st, ⟨true, "处于沉默期，直接拦截所有戳一戳消息",
        PokeAction.silentIgnore⟩)
  else
    executeBody cfg rng ev now st

/-- The try/except boundary of execute (plugin.py lines 260, 346-348):
an exception is logged and turned into (False, failure message); the
mutations made before the exception stay, as _POKE_STATE is a global. -/
def runCatch (r : Except (PokeState × String) (PokeState × ExecResult)) :
    PokeState × ExecResult :=
  match r with
  | Except.ok p => p
  | Except.error (st, e) =>
      (st, ⟨false, "执行失败: " ++ e, PokeAction.failure e⟩)

/-- AntiPokeCommand.execute (plugin.py lines 259-348), one event. -/
def execute (cfg : PokeConfig) (rng : RandOracle) (ev : PokeEvent)
    (now : Int) (st : PokeState) : PokeState × ExecResult :=
  runCatch (executeE cfg rng ev now st)

/-- One wake-up of the decay loop body (plugin.py lines 403-418): after
the sleep, when not silent, the counter is positive and a full decay
interval has passed since last_poke_time, decrement the counter by one,
floored at zero (Nat subtraction is the max with 0 of the Python code). -/
def poke_count_decay_once (cfg : PokeConfig) (now : Int)
    (st : PokeState) : PokeState :=
  if !st.is_silent && st.poke_count > 0 then
    if now - st.last_poke_time ≥ cfg.counts_decay_interval then
      { st with poke_count := st.poke_count - 1 }
    else st
  else st

/-- Task-handle lifecycle state: alive lists the identities of decay-loop
instances currently running, handle is _POKE_STATE decay_task (none for
None, some i for a task object; the task i is done when i is not in
alive), and next supplies fresh task identities. -/
structure DecaySys where
  alive : List Nat
  handle : Option Nat
  next : Nat
deriving Repr, DecidableEq

/-- Initially no decay task exists. -/
def DecaySys.start0 : DecaySys := ⟨[], none, 0⟩

/-- asyncio.create_task on the loop: a fresh instance starts running and
the handle points at it. -/
def spawnLoop (s : DecaySys) : DecaySys :=
  ⟨s.next :: s.alive, some s.next, s.next + 1⟩

/-- start_decay_task_if_needed (plugin.py lines 428-438): spawn only when
the stored handle is None or refers to a task that is done. -/
def start_decay_task_if_needed (s : DecaySys) : DecaySys :=
  match s.handle with
  | none => spawnLoop s
  | some i => if i ∈ s.alive then s else spawnLoop s

/-- An unexpected exception in the loop body of task i (plugin.py lines
422-426): the handler stores None into the handle slot unconditionally
and re-raises, ending the task. -/
def crashTask (s : DecaySys) (i : Nat) : DecaySys :=
  ⟨s.alive.erase i, none, s.next⟩

/-- Cancellation of task i (plugin.py lines 419-421): CancelledError is
re-raised without touching the handle; the task ends. -/
def cancelTask (s : DecaySys) (i : Nat) : DecaySys :=
  ⟨s.alive.erase i, s.handle, s.next⟩

/-- The reachable task-handle states: from the initial state by starts,
crashes of a running instance, and cancellations of a running
instance.  Crash and cancel require the ended instance to be running. -/
inductive DecayReach : DecaySys → Prop
  | start0 : DecayReach DecaySys.start0
  | step (s : DecaySys) : DecayReach s →
      DecayReach (start_decay_task_if_needed s)
  | crash (s : DecaySys) (i : Nat) : DecayReach s → i ∈ s.alive →
      DecayReach (crashTask s i)
  | cancel (s : DecaySys) (i : Nat) : DecayReach s → i ∈ s.alive →
      DecayReach (cancelTask s i)

/-- The handle discipline: either no instance runs, or exactly one runs
and the handle points at it. -/
def DecayInv (s : DecaySys) : Prop :=
  s.alive = [] ∨ ∃ i, s.alive = [i] ∧ s.handle = some i

end AntiPoke

namespace AntiPoke

/-! Helper lemmas. -/

theorem randint_mem (a b : Int) (s : Nat) (h : a ≤ b) :
    ∃ r, randint a b s = some r ∧ a ≤ r ∧ r ≤ b := by
  have hpos : 0 < b - a + 1 := by omega
  have h0 : 0 ≤ (s : Int) % (b - a + 1) := Int.emod_nonneg _ (by omega)
  have h1 : (s : Int) % (b - a + 1) < b - a + 1 := Int.emod_lt_of_pos _ hpos
  refine ⟨a + (s : Int) % (b - a + 1), ?_, by omega, by omega⟩
  simp [randint, h]

theorem gen_params_ok (cfg : PokeConfig) (seed : Nat × Nat) (st : PokeState)
    (hT : cfg.min_silence_time ≤ cfg.max_silence_time)
    (hC : cfg.min_silence_counts ≤ cfg.max_silence_counts) :
    ∃ d c,
      randint cfg.min_silence_time cfg.max_silence_time seed.1 = some d ∧
      randint cfg.min_silence_counts cfg.max_silence_counts seed.2 = some c ∧
      generate_random_silence_params cfg seed st =
        ({ st with current_silence_duration := d, current_poke_threshold := c },
          none) ∧
      cfg.min_silence_time ≤ d ∧ d ≤ cfg.max_silence_time ∧
      cfg.min_silence_counts ≤ c ∧ c ≤ cfg.max_silence_counts := by
  obtain ⟨d, hd, hd1, hd2⟩ := randint_mem _ _ seed.1 hT
  obtain ⟨c, hc, hc1, hc2⟩ := randint_mem _ _ seed.2 hC
  exact ⟨d, c, hd, hc, by simp [generate_random_silence_params, hd, hc],
    hd1, hd2, hc1, hc2⟩

theorem gen_params_preserves (cfg : PokeConfig) (seed : Nat × Nat)
    (st : PokeState) :
    (generate_random_silence_params cfg seed st).1.poke_count = st.poke_count ∧
    (generate_random_silence_params cfg seed st).1.is_silent = st.is_silent ∧
    (generate_random_silence_params cfg seed st).1.silence_start_time
      = st.silence_start_time ∧
    (generate_random_silence_params cfg seed st).1.last_poke_time
      = st.last_poke_time ∧
    (generate_random_silence_params cfg seed st).1.last_poke_back_time
      = st.last_poke_back_time ∧
    (generate_random_silence_params cfg seed st).1.last_poke_received_time
      = st.last_poke_received_time := by
  unfold generate_random_silence_params
  cases h1 : randint cfg.min_silence_time cfg.max_silence_time seed.1 with
  | none => simp
  | some d =>
    cases h2 : randint cfg.min_silence_counts cfg.max_silence_counts seed.2 with
    | none => simp
    | some c => simp

end AntiPoke

namespace AntiPoke

theorem executeE_not_silent (cfg : PokeConfig) (rng : RandOracle)
    (ev : PokeEvent) (now : Int) (st : PokeState)
    (h : st.is_silent = false) :
    executeE cfg rng ev now st = executeBody cfg rng ev now st := by
  simp [executeE, h]

theorem executeBody_self_poke (cfg : PokeConfig) (rng : RandOracle)
    (ev : PokeEvent) (now : Int) (st : PokeState)
    (hnotice : ev.is_notice = true)
    (hself : ev.poked_id = ev.self_id)
    (hinsens : check_insensitivity_period cfg st now = false) :
    executeBody cfg rng ev now st =
      executeCount cfg rng ev now (can_poke_back now st.last_poke_back_time)
        { st with
            last_poke_received_time := now
            last_poke_time := now
            poke_count := st.poke_count + 1 } := by
  simp [executeBody, hnotice, hself, hinsens]

theorem executeCount_threshold_set (cfg : PokeConfig) (rng : RandOracle)
    (ev : PokeEvent) (now : Int) (canBack : Bool) (st : PokeState)
    (h : st.current_poke_threshold ≠ 0) :
    executeCount cfg rng ev now canBack st =
      executeDecide cfg rng ev now canBack 0 st := by
  simp [executeCount, h]

theorem executeFinal_silent (rng : RandOracle) (ev : PokeEvent) (now : Int)
    (canBack : Bool) (suffix : String) (st : PokeState)
    (h : st.is_silent = true) :
    executeFinal rng ev now canBack suffix st =
      (st, ⟨true, "选择言语回复", PokeAction.reply suffix⟩) := by
  simp [executeFinal, h]

end AntiPoke

namespace AntiPoke

/-- Claim C4: for all bounds with min ≤ max (for both the duration pair
and the count pair), generate_random_silence_params succeeds and stores a
silence duration in the inclusive range of the duration bounds and a poke
threshold in the inclusive range of the count bounds, for every sample. -/
theorem generate_silence_params_in_bounds (cfg : PokeConfig)
    (seed : Nat × Nat) (st : PokeState)
    (hT : cfg.min_silence_time ≤ cfg.max_silence_time)
    (hC : cfg.min_silence_counts ≤ cfg.max_silence_counts) :
    ∃ st2, generate_random_silence_params cfg seed st = (st2, none) ∧
      cfg.min_silence_time ≤ st2.current_silence_duration ∧
      st2.current_silence_duration ≤ cfg.max_silence_time ∧
      cfg.min_silence_counts ≤ st2.current_poke_threshold ∧
      st2.current_poke_threshold ≤ cfg.max_silence_counts := by
  obtain ⟨d, c, hd, hc, heq, hd1, hd2, hc1, hc2⟩ :=
    gen_params_ok cfg seed st hT hC
  exact ⟨_, heq, hd1, hd2, hc1, hc2⟩

/-- Witness for C4 at the default configuration bounds and a concrete
sample pair. -/
theorem generate_silence_params_in_bounds_witness :
    ((120 : Int) ≤ 300 ∧ (5 : Int) ≤ 9) ∧
    ∃ st2,
      generate_random_silence_params ⟨120, 300, 5, 9, 180, 4⟩ (7, 3)
          initState = (st2, none) ∧
      (120 : Int) ≤ st2.current_silence_duration ∧
      st2.current_silence_duration ≤ 300 ∧
      (5 : Int) ≤ st2.current_poke_threshold ∧
      st2.current_poke_threshold ≤ 9 :=
  ⟨⟨by decide, by decide⟩,
    generate_silence_params_in_bounds ⟨120, 300, 5, 9, 180, 4⟩ (7, 3)
      initState (by decide) (by decide)⟩

/-- Claim C5: one wake-up of the decay loop decrements poke_count by
exactly one (never below zero, which Nat subtraction encodes) precisely
when the agent is not silent, the counter is positive and at least a full
decay interval has passed since last_poke_time; in every other case the
state is left untouched. -/
theorem decay_once_decrements_iff (cfg : PokeConfig) (now : Int)
    (st : PokeState) :
    poke_count_decay_once cfg now st =
      if st.is_silent = false ∧ 0 < st.poke_count ∧
          cfg.counts_decay_interval ≤ now - st.last_poke_time then
        { st with poke_count := st.poke_count - 1 }
      else st := by
  unfold poke_count_decay_once
  rcases st with ⟨pc, sil, a, b, c, d, e, f⟩
  cases sil
  · simp only [Bool.not_false, Bool.true_and]
    split_ifs <;> simp_all
  · simp

/-- Claim C9: the try/except boundary of execute converts every raised
error of the decision body into a (success = false, message) result for
that event, and passes successful results through unchanged; no third
outcome exists. -/
theorem execute_catches_all (cfg : PokeConfig) (rng : RandOracle)
    (ev : PokeEvent) (now : Int) (st : PokeState) :
    (∃ r, executeE cfg rng ev now st = Except.ok r ∧
      execute cfg rng ev now st = r) ∨
    (∃ st2 e, executeE cfg rng ev now st = Except.error (st2, e) ∧
      execute cfg rng ev now st =
        (st2, ⟨false, "执行失败: " ++ e, PokeAction.failure e⟩)) := by
  cases h : executeE cfg rng ev now st with
  | ok r => exact Or.inl ⟨r, rfl, by simp [execute, runCatch, h]⟩
  | error p =>
    obtain ⟨st2, e⟩ := p
    exact Or.inr ⟨st2, e, rfl, by simp [execute, runCatch, h]⟩

end AntiPoke

namespace AntiPoke

theorem execute_not_silent (cfg : PokeConfig) (rng : RandOracle)
    (ev : PokeEvent) (now : Int) (st : PokeState)
    (h : st.is_silent = false) :
    execute cfg rng ev now st = runCatch (executeBody cfg rng ev now st) := by
  unfold execute
  rw [executeE_not_silent _ _ _ _ _ h]

theorem execute_silent_blocked (cfg : PokeConfig) (rng : RandOracle)
    (ev : PokeEvent) (now : Int) (st : PokeState)
    (hsil : st.is_silent = true)
    (h : now - st.silence_start_time ≤ st.current_silence_duration) :
    execute cfg rng ev now st =
      (st, ⟨true, "处于沉默期，直接拦截所有戳一戳消息",
        PokeAction.silentIgnore⟩) := by
  unfold execute executeE runCatch
  simp [hsil, not_lt.mpr h]

theorem execute_silent_expired (cfg : PokeConfig) (rng : RandOracle)
    (ev : PokeEvent) (now : Int) (st : PokeState)
    (hsil : st.is_silent = true)
    (h : st.current_silence_duration < now - st.silence_start_time) :
    execute cfg rng ev now st =
      runCatch (executeBody cfg rng ev now
        { st with is_silent := false, poke_count := 0 }) := by
  unfold execute executeE
  simp [hsil, h]

theorem executeFinal_fields (rng : RandOracle) (ev : PokeEvent) (now : Int)
    (canBack : Bool) (suffix : String) (st : PokeState) :
    (executeFinal rng ev now canBack suffix st).1.poke_count
      = st.poke_count ∧
    (executeFinal rng ev now canBack suffix st).1.is_silent
      = st.is_silent := by
  unfold executeFinal
  split_ifs <;> simp

theorem executeDecide_count (cfg : PokeConfig) (rng : RandOracle)
    (ev : PokeEvent) (now : Int) (canBack : Bool) (gi : Nat)
    (st : PokeState) :
    (runCatch (executeDecide cfg rng ev now canBack gi st)).1.poke_count
      = st.poke_count := by
  unfold executeDecide
  split_ifs with hge
  · have hp := gen_params_preserves cfg (rng.seeds gi)
      { st with is_silent := true, silence_start_time := now }
    rcases hg : generate_random_silence_params cfg (rng.seeds gi)
      { st with is_silent := true, silence_start_time := now } with ⟨st3, o⟩
    rw [hg] at hp
    cases o with
    | none =>
      simpa [runCatch,
        (executeFinal_fields rng ev now canBack protestSuffix st3).1]
        using hp.1
    | some e => simpa [runCatch] using hp.1
  · exact (executeFinal_fields rng ev now canBack softSuffix st).1

theorem executeCount_count (cfg : PokeConfig) (rng : RandOracle)
    (ev : PokeEvent) (now : Int) (canBack : Bool) (st : PokeState) :
    (runCatch (executeCount cfg rng ev now canBack st)).1.poke_count
      = st.poke_count := by
  unfold executeCount
  split_ifs with h0
  · have hp := gen_params_preserves cfg (rng.seeds 0) st
    rcases hg : generate_random_silence_params cfg (rng.seeds 0) st
      with ⟨st2, o⟩
    rw [hg] at hp
    cases o with
    | none =>
      exact (executeDecide_count cfg rng ev now canBack 1 st2).trans hp.1
    | some e => simpa [runCatch] using hp.1
  · exact executeDecide_count cfg rng ev now canBack 0 st

theorem executeBody_count_cases (cfg : PokeConfig) (rng : RandOracle)
    (ev : PokeEvent) (now : Int) (st : PokeState) :
    (runCatch (executeBody cfg rng ev now st)).1.poke_count
        = st.poke_count ∨
    (runCatch (executeBody cfg rng ev now st)).1.poke_count
        = st.poke_count + 1 := by
  unfold executeBody
  split_ifs <;>
    first
      | exact Or.inl rfl
      | exact Or.inr (executeCount_count cfg rng ev now
          (can_poke_back now st.last_poke_back_time)
          { st with
              last_poke_received_time := now
              last_poke_time := now
              poke_count := st.poke_count + 1 })

theorem executeBody_silent_count (cfg : PokeConfig) (rng : RandOracle)
    (ev : PokeEvent) (now : Int) (st : PokeState)
    (h : st.is_silent = false)
    (hend : (runCatch (executeBody cfg rng ev now st)).1.is_silent = true) :
    (runCatch (executeBody cfg rng ev now st)).1.poke_count
      = st.poke_count + 1 := by
  unfold executeBody at hend ⊢
  split_ifs at hend ⊢ <;>
    first
      | exact executeCount_count cfg rng ev now
          (can_poke_back now st.last_poke_back_time)
          { st with
              last_poke_received_time := now
              last_poke_time := now
              poke_count := st.poke_count + 1 }
      | simp [runCatch, h] at hend

end AntiPoke

namespace AntiPoke

theorem executeDecide_escalate (cfg : PokeConfig) (rng : RandOracle)
    (ev : PokeEvent) (now : Int) (canBack : Bool) (gi : Nat)
    (st : PokeState)
    (hge : (st.poke_count : Int) ≥ st.current_poke_threshold)
    (hT : cfg.min_silence_time ≤ cfg.max_silence_time)
    (hC : cfg.min_silence_counts ≤ cfg.max_silence_counts) :
    ∃ d c,
      randint cfg.min_silence_time cfg.max_silence_time
          (rng.seeds gi).1 = some d ∧
      randint cfg.min_silence_counts cfg.max_silence_counts
          (rng.seeds gi).2 = some c ∧
      cfg.min_silence_time ≤ d ∧ d ≤ cfg.max_silence_time ∧
      cfg.min_silence_counts ≤ c ∧ c ≤ cfg.max_silence_counts ∧
      executeDecide cfg rng ev now canBack gi st =
        Except.ok
          ({ st with
              is_silent := true
              silence_start_time := now
              current_silence_duration := d
              current_poke_threshold := c },
           ⟨true, "选择言语回复", PokeAction.reply protestSuffix⟩) := by
  obtain ⟨d, c, hd, hc, hgen, hd1, hd2, hc1, hc2⟩ :=
    gen_params_ok cfg (rng.seeds gi)
      { st with is_silent := true, silence_start_time := now } hT hC
  refine ⟨d, c, hd, hc, hd1, hd2, hc1, hc2, ?_⟩
  unfold executeDecide
  rw [if_pos hge, hgen]
  simp [executeFinal]

end AntiPoke

namespace AntiPoke

/-- Claim C1: a self-directed poke notification processed in NORMAL state
outside the insensitivity window, with the threshold already generated
and reached by the incremented counter, transitions the state to silent,
stamps silence_start_time with the current time, regenerates the next
silence duration and threshold of the next cycle (fresh draws inside the
configured bounds), and still answers the current event with a reply
carrying the protest (escalation) suffix. -/
theorem escalation_on_threshold (cfg : PokeConfig) (rng : RandOracle)
    (ev : PokeEvent) (now : Int) (st : PokeState)
    (hsil : st.is_silent = false)
    (hnotice : ev.is_notice = true)
    (hself : ev.poked_id = ev.self_id)
    (hinsens : check_insensitivity_period cfg st now = false)
    (hthr0 : st.current_poke_threshold ≠ 0)
    (hthr : st.current_poke_threshold ≤ (st.poke_count : Int) + 1)
    (hT : cfg.min_silence_time ≤ cfg.max_silence_time)
    (hC : cfg.min_silence_counts ≤ cfg.max_silence_counts) :
    ∃ d c,
      randint cfg.min_silence_time cfg.max_silence_time
          (rng.seeds 0).1 = some d ∧
      randint cfg.min_silence_counts cfg.max_silence_counts
          (rng.seeds 0).2 = some c ∧
      cfg.min_silence_time ≤ d ∧ d ≤ cfg.max_silence_time ∧
      cfg.min_silence_counts ≤ c ∧ c ≤ cfg.max_silence_counts ∧
      execute cfg rng ev now st =
        ({ st with
            poke_count := st.poke_count + 1
            is_silent := true
            silence_start_time := now
            last_poke_time := now
            last_poke_received_time := now
            current_silence_duration := d
            current_poke_threshold := c },
         ⟨true, "选择言语回复", PokeAction.reply protestSuffix⟩) := by
  have hge : (PokeState.poke_count
      { st with
          last_poke_received_time := now
          last_poke_time := now
          poke_count := st.poke_count + 1 } : Int) ≥
      (PokeState.current_poke_threshold
        { st with
            last_poke_received_time := now
            last_poke_time := now
            poke_count := st.poke_count + 1 }) := by
    show ((st.poke_count + 1 : Nat) : Int) ≥ st.current_poke_threshold
    push_cast
    omega
  obtain ⟨d, c, hd, hc, hd1, hd2, hc1, hc2, hdec⟩ :=
    executeDecide_escalate cfg rng ev now
      (can_poke_back now st.last_poke_back_time) 0
      { st with
          last_poke_received_time := now
          last_poke_time := now
          poke_count := st.poke_count + 1 } hge hT hC
  have hcnt := executeCount_threshold_set cfg rng ev now
    (can_poke_back now st.last_poke_back_time)
    { st with
        last_poke_received_time := now
        last_poke_time := now
        poke_count := st.poke_count + 1 } hthr0
  refine ⟨d, c, hd, hc, hd1, hd2, hc1, hc2, ?_⟩
  rw [execute_not_silent cfg rng ev now st hsil,
    executeBody_self_poke cfg rng ev now st hnotice hself hinsens,
    hcnt, hdec]
  rfl

end AntiPoke

namespace AntiPoke

/-- Witness for C1: with min and max counts both 5, four self-pokes from
the fresh state spaced outside the insensitivity window reach the shown
state, and the fifth poke satisfies every hypothesis and escalates. -/
theorem escalation_on_threshold_witness :
    (execute ⟨120, 300, 5, 5, 180, 4⟩ ⟨false, false, true, fun _ => (0, 0)⟩
        ⟨true, "42", "1", "1"⟩ 30
        ((execute ⟨120, 300, 5, 5, 180, 4⟩
            ⟨false, false, true, fun _ => (0, 0)⟩ ⟨true, "42", "1", "1"⟩ 20
          ((execute ⟨120, 300, 5, 5, 180, 4⟩
              ⟨false, false, true, fun _ => (0, 0)⟩ ⟨true, "42", "1", "1"⟩ 10
            ((execute ⟨120, 300, 5, 5, 180, 4⟩
                ⟨false, false, true, fun _ => (0, 0)⟩ ⟨true, "42", "1", "1"⟩ 0
              initState).1)).1)).1)).1 = ⟨4, false, 0, 30, 120, 5, 0, 30⟩ ∧
    check_insensitivity_period ⟨120, 300, 5, 5, 180, 4⟩
        ⟨4, false, 0, 30, 120, 5, 0, 30⟩ 40 = false ∧
    (∃ d c,
      randint 120 300 0 = some d ∧
      randint 5 5 0 = some c ∧
      (120 : Int) ≤ d ∧ d ≤ 300 ∧ (5 : Int) ≤ c ∧ c ≤ 5 ∧
      execute ⟨120, 300, 5, 5, 180, 4⟩ ⟨false, false, true, fun _ => (0, 0)⟩
          ⟨true, "42", "1", "1"⟩ 40 ⟨4, false, 0, 30, 120, 5, 0, 30⟩ =
        ({ (⟨4, false, 0, 30, 120, 5, 0, 30⟩ : PokeState) with
            poke_count := 4 + 1
            is_silent := true
            silence_start_time := 40
            last_poke_time := 40
            last_poke_received_time := 40
            current_silence_duration := d
            current_poke_threshold := c },
         ⟨true, "选择言语回复", PokeAction.reply protestSuffix⟩)) :=
  ⟨by decide, by decide,
    escalation_on_threshold ⟨120, 300, 5, 5, 180, 4⟩
      ⟨false, false, true, fun _ => (0, 0)⟩ ⟨true, "42", "1", "1"⟩ 40
      ⟨4, false, 0, 30, 120, 5, 0, 30⟩ rfl rfl rfl (by decide) (by decide)
      (by decide) (by decide) (by decide)⟩

/-- Claim C2: while the state is silent, an event inside the silence
window is intercepted with the entire state left untouched; an event
after the window first flips is_silent off and zeroes poke_count, and
only then applies the own processing of the event (the normal body). -/
theorem silence_gate_spec (cfg : PokeConfig) (rng : RandOracle)
    (ev : PokeEvent) (now : Int) (st : PokeState)
    (hsil : st.is_silent = true) :
    (now - st.silence_start_time ≤ st.current_silence_duration →
      execute cfg rng ev now st =
        (st, ⟨true, "处于沉默期，直接拦截所有戳一戳消息",
          PokeAction.silentIgnore⟩)) ∧
    (st.current_silence_duration < now - st.silence_start_time →
      execute cfg rng ev now st =
        runCatch (executeBody cfg rng ev now
          { st with is_silent := false, poke_count := 0 })) := by
  constructor
  · intro h
    exact execute_silent_blocked cfg rng ev now st hsil h
  · intro h
    exact execute_silent_expired cfg rng ev now st hsil h

/-- Witness for C2 at the scenario of the spec: silence started 301 seconds
ago with a 300-second window, so the next event resets the counter and
runs the normal body. -/
theorem silence_gate_spec_witness :
    (PokeState.is_silent ⟨3, true, 699, 699, 300, 7, 0, 699⟩ = true) ∧
    ((1000 : Int) - 699 ≤ 300 →
      execute ⟨120, 300, 5, 9, 180, 4⟩ ⟨false, false, true, fun _ => (0, 0)⟩
          ⟨true, "42", "1", "1"⟩ 1000 ⟨3, true, 699, 699, 300, 7, 0, 699⟩ =
        (⟨3, true, 699, 699, 300, 7, 0, 699⟩,
          ⟨true, "处于沉默期，直接拦截所有戳一戳消息",
            PokeAction.silentIgnore⟩)) ∧
    ((300 : Int) < 1000 - 699 →
      execute ⟨120, 300, 5, 9, 180, 4⟩ ⟨false, false, true, fun _ => (0, 0)⟩
          ⟨true, "42", "1", "1"⟩ 1000 ⟨3, true, 699, 699, 300, 7, 0, 699⟩ =
        runCatch (executeBody ⟨120, 300, 5, 9, 180, 4⟩
          ⟨false, false, true, fun _ => (0, 0)⟩ ⟨true, "42", "1", "1"⟩ 1000
          { (⟨3, true, 699, 699, 300, 7, 0, 699⟩ : PokeState) with
              is_silent := false, poke_count := 0 })) :=
  ⟨rfl,
    silence_gate_spec ⟨120, 300, 5, 9, 180, 4⟩
      ⟨false, false, true, fun _ => (0, 0)⟩ ⟨true, "42", "1", "1"⟩ 1000
      ⟨3, true, 699, 699, 300, 7, 0, 699⟩ rfl⟩

end AntiPoke

namespace AntiPoke

/-- Claim C3: poke_count is zeroed exactly at the silent-to-normal flip.
An event that starts in NORMAL state and ends silent (the escalation)
carries the incremented, hence nonzero, counter; an event whose final
counter is zero while the initial one was not can only be the
expired-silence gate, and at that flip the state handed to the rest of
the processing has poke_count zero; the decay step never changes
is_silent, so no other transition flips it. -/
theorem poke_count_reset_iff_unsilence (cfg : PokeConfig)
    (rng : RandOracle) (ev : PokeEvent) (now : Int) (st : PokeState) :
    (st.is_silent = false →
      (execute cfg rng ev now st).1.is_silent = true →
      (execute cfg rng ev now st).1.poke_count = st.poke_count + 1) ∧
    ((execute cfg rng ev now st).1.poke_count = 0 → st.poke_count ≠ 0 →
      st.is_silent = true ∧
      st.current_silence_duration < now - st.silence_start_time) ∧
    (st.is_silent = true →
      st.current_silence_duration < now - st.silence_start_time →
      execute cfg rng ev now st =
        runCatch (executeBody cfg rng ev now
          { st with is_silent := false, poke_count := 0 })) ∧
    (poke_count_decay_once cfg now st).is_silent = st.is_silent := by
  refine ⟨?_, ?_, ?_, ?_⟩
  · intro h hend
    rw [execute_not_silent cfg rng ev now st h] at hend ⊢
    exact executeBody_silent_count cfg rng ev now st h hend
  · intro h0 hne
    by_cases hs : st.is_silent = true
    · by_cases hw : st.current_silence_duration < now - st.silence_start_time
      · exact ⟨hs, hw⟩
      · rw [execute_silent_blocked cfg rng ev now st hs (by omega)] at h0
        exact absurd h0 hne
    · rw [execute_not_silent cfg rng ev now st
        (Bool.not_eq_true _ ▸ hs)] at h0
      rcases executeBody_count_cases cfg rng ev now st with hcase | hcase <;>
        rw [hcase] at h0
      · exact absurd h0 hne
      · exact absurd h0 (Nat.succ_ne_zero _)
  · intro hs hw
    exact execute_silent_expired cfg rng ev now st hs hw
  · unfold poke_count_decay_once
    split_ifs <;> rfl

/-- Witness for C3 at concrete inputs: a silent state whose window has
expired, processed at time 1000. -/
theorem poke_count_reset_iff_unsilence_witness :
    ((PokeState.is_silent ⟨3, true, 699, 699, 300, 7, 0, 699⟩ = false →
      (execute ⟨120, 300, 5, 9, 180, 4⟩ ⟨false, false, true, fun _ => (0, 0)⟩
          ⟨true, "42", "1", "1"⟩ 1000
          ⟨3, true, 699, 699, 300, 7, 0, 699⟩).1.is_silent = true →
      (execute ⟨120, 300, 5, 9, 180, 4⟩ ⟨false, false, true, fun _ => (0, 0)⟩
          ⟨true, "42", "1", "1"⟩ 1000
          ⟨3, true, 699, 699, 300, 7, 0, 699⟩).1.poke_count = 3 + 1) ∧
    ((execute ⟨120, 300, 5, 9, 180, 4⟩ ⟨false, false, true, fun _ => (0, 0)⟩
          ⟨true, "42", "1", "1"⟩ 1000
          ⟨3, true, 699, 699, 300, 7, 0, 699⟩).1.poke_count = 0 →
      (3 : Nat) ≠ 0 →
      PokeState.is_silent ⟨3, true, 699, 699, 300, 7, 0, 699⟩ = true ∧
      (300 : Int) < 1000 - 699) ∧
    (PokeState.is_silent ⟨3, true, 699, 699, 300, 7, 0, 699⟩ = true →
      (300 : Int) < 1000 - 699 →
      execute ⟨120, 300, 5, 9, 180, 4⟩ ⟨false, false, true, fun _ => (0, 0)⟩
          ⟨true, "42", "1", "1"⟩ 1000 ⟨3, true, 699, 699, 300, 7, 0, 699⟩ =
        runCatch (executeBody ⟨120, 300, 5, 9, 180, 4⟩
          ⟨false, false, true, fun _ => (0, 0)⟩ ⟨true, "42", "1", "1"⟩ 1000
          { (⟨3, true, 699, 699, 300, 7, 0, 699⟩ : PokeState) with
              is_silent := false, poke_count := 0 })) ∧
    (poke_count_decay_once ⟨120, 300, 5, 9, 180, 4⟩ 1000
        ⟨3, true, 699, 699, 300, 7, 0, 699⟩).is_silent =
      PokeState.is_silent ⟨3, true, 699, 699, 300, 7, 0, 699⟩) :=
  poke_count_reset_iff_unsilence ⟨120, 300, 5, 9, 180, 4⟩
    ⟨false, false, true, fun _ => (0, 0)⟩ ⟨true, "42", "1", "1"⟩ 1000
    ⟨3, true, 699, 699, 300, 7, 0, 699⟩

end AntiPoke

namespace AntiPoke

theorem can_poke_back_iff (now last : Int) (h0 : 0 ≤ last) :
    can_poke_back now last = true ↔
      (last = 0 ∨ POKE_BACK_COOLDOWN ≤ now - last) := by
  unfold can_poke_back POKE_BACK_COOLDOWN
  split_ifs with h1 h2
  · simp only [Bool.false_eq_true, false_iff]
    push_neg
    exact ⟨by omega, by omega⟩
  · simp only [true_iff]
    right
    omega
  · simp only [true_iff]
    left
    omega

/-- Claim C7: can_poke_back holds exactly when no back-poke was ever
sent (timestamp zero) or the cooldown of ten seconds has fully elapsed,
for nonnegative timestamps; and a self-poke handled in NORMAL state
below the threshold while the cooldown blocks takes the fallback branch
(reply with the small probability roll, otherwise nothing) even when the
reflect roll is forced to pass, never the reflect-poke branch. -/
theorem can_poke_back_spec :
    (∀ now last : Int, 0 ≤ last →
      (can_poke_back now last = true ↔
        (last = 0 ∨ POKE_BACK_COOLDOWN ≤ now - last))) ∧
    (∀ (cfg : PokeConfig) (rng : RandOracle) (ev : PokeEvent) (now : Int)
        (st : PokeState),
      st.is_silent = false → ev.is_notice = true →
      ev.poked_id = ev.self_id →
      check_insensitivity_period cfg st now = false →
      st.current_poke_threshold ≠ 0 →
      (st.poke_count : Int) + 1 < st.current_poke_threshold →
      can_poke_back now st.last_poke_back_time = false →
      rng.reflect_roll = true →
      execute cfg rng ev now st =
        ({ st with
            last_poke_received_time := now
            last_poke_time := now
            poke_count := st.poke_count + 1 },
         if rng.reply_roll then
           ⟨true, "选择言语回复", PokeAction.reply softSuffix⟩
         else ⟨true, "不想回复", PokeAction.noReply⟩)) := by
  constructor
  · exact can_poke_back_iff
  · intro cfg rng ev now st hsil hnotice hself hinsens hthr0 hlt hcan hroll
    have hcnt := executeCount_threshold_set cfg rng ev now
      (can_poke_back now st.last_poke_back_time)
      { st with
          last_poke_received_time := now
          last_poke_time := now
          poke_count := st.poke_count + 1 } hthr0
    rw [execute_not_silent cfg rng ev now st hsil,
      executeBody_self_poke cfg rng ev now st hnotice hself hinsens, hcnt]
    unfold executeDecide
    rw [if_neg (by push_cast; omega)]
    unfold executeFinal runCatch
    rw [hcan]
    cases hr : rng.reply_roll <;> simp [hr, hsil]

/-- Witness for C7: five seconds after the last back-poke the cooldown
blocks, and the reflect branch does not fire despite a passing roll. -/
theorem can_poke_back_spec_witness :
    (can_poke_back 100 95 = true ↔
      ((95 : Int) = 0 ∨ POKE_BACK_COOLDOWN ≤ (100 : Int) - 95)) ∧
    execute ⟨120, 300, 5, 9, 180, 4⟩ ⟨false, true, true, fun _ => (0, 0)⟩
        ⟨true, "42", "1", "1"⟩ 100 ⟨1, false, 0, 0, 0, 5, 95, 0⟩ =
      ({ (⟨1, false, 0, 0, 0, 5, 95, 0⟩ : PokeState) with
          last_poke_received_time := 100
          last_poke_time := 100
          poke_count := 1 + 1 },
       if (⟨false, true, true, fun _ => (0, 0)⟩ : RandOracle).reply_roll then
         ⟨true, "选择言语回复", PokeAction.reply softSuffix⟩
       else ⟨true, "不想回复", PokeAction.noReply⟩) :=
  ⟨can_poke_back_spec.1 100 95 (by decide),
    can_poke_back_spec.2 ⟨120, 300, 5, 9, 180, 4⟩
      ⟨false, true, true, fun _ => (0, 0)⟩ ⟨true, "42", "1", "1"⟩ 100
      ⟨1, false, 0, 0, 0, 5, 95, 0⟩ rfl rfl rfl (by decide) (by decide)
      (by decide) (by decide) rfl⟩

end AntiPoke

namespace AntiPoke

/-- Claim C8 counterexample: a poke aimed at a third party arriving
during an unexpired silence window is intercepted by the silence gate,
so the follow-poke/no-op branch does not execute even though the follow
roll passes; the claim, read over every third-party event, fails. -/
theorem third_party_silence_cex :
    (execute ⟨120, 300, 5, 5, 180, 4⟩ ⟨true, true, true, fun _ => (0, 0)⟩
        ⟨true, "42", "7", "1"⟩ 50
        ⟨3, true, 0, 0, 100, 0, 0, 0⟩).2.action = PokeAction.silentIgnore ∧
    PokeAction.silentIgnore ≠ PokeAction.followPoke "7" ∧
    PokeAction.silentIgnore ≠ PokeAction.noFollow := by
  refine ⟨by decide, by decide, by decide⟩

/-- Claim C8 amended: for every poke notification processed while not in
silence whose target is a third party, only the follow-poke/no-op branch
executes: a passing follow roll emits the follow poke and changes
nothing but last_poke_back_time, a failing roll changes nothing at all,
and poke_count is untouched either way. -/
theorem third_party_poke_frame (cfg : PokeConfig) (rng : RandOracle)
    (ev : PokeEvent) (now : Int) (st : PokeState)
    (hsil : st.is_silent = false)
    (hnotice : ev.is_notice = true)
    (hother : ev.poked_id ≠ ev.self_id) :
    (rng.follow_roll = true →
      execute cfg rng ev now st =
        ({ st with last_poke_back_time := now },
         ⟨true, "忍不住跟着戳了一下", PokeAction.followPoke ev.poked_id⟩)) ∧
    (rng.follow_roll = false →
      execute cfg rng ev now st =
        (st, ⟨true, "不是找自己的，也不打算跟戳", PokeAction.noFollow⟩)) ∧
    (execute cfg rng ev now st).1.poke_count = st.poke_count := by
  rw [execute_not_silent cfg rng ev now st hsil]
  refine ⟨?_, ?_, ?_⟩
  · intro hf
    unfold executeBody runCatch
    simp [hnotice, hother, hf]
  · intro hf
    unfold executeBody runCatch
    simp [hnotice, hother, hf]
  · unfold executeBody runCatch
    cases hf : rng.follow_roll <;> simp [hnotice, hother, hf]

/-- Witness for the amended C8 at a concrete third-party poke processed
in NORMAL state with a passing follow roll. -/
theorem third_party_poke_frame_witness :
    (((⟨true, false, true, fun _ => (0, 0)⟩ : RandOracle).follow_roll = true →
      execute ⟨120, 300, 5, 5, 180, 4⟩ ⟨true, false, true, fun _ => (0, 0)⟩ ⟨true, "42", "7", "1"⟩ 50
          ⟨3, false, 0, 0, 100, 5, 0, 0⟩ =
        ({ (⟨3, false, 0, 0, 100, 5, 0, 0⟩ : PokeState) with
            last_poke_back_time := 50 },
         ⟨true, "忍不住跟着戳了一下", PokeAction.followPoke "7"⟩)) ∧
    ((⟨true, false, true, fun _ => (0, 0)⟩ : RandOracle).follow_roll = false →
      execute ⟨120, 300, 5, 5, 180, 4⟩ ⟨true, false, true, fun _ => (0, 0)⟩ ⟨true, "42", "7", "1"⟩ 50
          ⟨3, false, 0, 0, 100, 5, 0, 0⟩ =
        (⟨3, false, 0, 0, 100, 5, 0, 0⟩,
         ⟨true, "不是找自己的，也不打算跟戳", PokeAction.noFollow⟩)) ∧
    (execute ⟨120, 300, 5, 5, 180, 4⟩ ⟨true, false, true, fun _ => (0, 0)⟩ ⟨true, "42", "7", "1"⟩ 50
        ⟨3, false, 0, 0, 100, 5, 0, 0⟩).1.poke_count = 3) :=
  third_party_poke_frame ⟨120, 300, 5, 5, 180, 4⟩ ⟨true, false, true, fun _ => (0, 0)⟩
    ⟨true, "42", "7", "1"⟩ 50 ⟨3, false, 0, 0, 100, 5, 0, 0⟩ rfl rfl
    (by decide)

end AntiPoke

namespace AntiPoke

theorem executeFinal_reflect_canBack (rng : RandOracle) (ev : PokeEvent)
    (now : Int) (canBack : Bool) (suffix : String) (st : PokeState)
    (q : String)
    (h : (executeFinal rng ev now canBack suffix st).2.action
        = PokeAction.reflectPoke q) :
    canBack = true := by
  unfold executeFinal at h
  split_ifs at h with h1 h2 h3
  all_goals simp_all

theorem executeDecide_reflect_canBack (cfg : PokeConfig)
    (rng : RandOracle) (ev : PokeEvent) (now : Int) (canBack : Bool)
    (gi : Nat) (st : PokeState) (q : String)
    (h : (runCatch (executeDecide cfg rng ev now canBack gi st)).2.action
        = PokeAction.reflectPoke q) :
    canBack = true := by
  unfold executeDecide at h
  split_ifs at h with hge
  · rcases hg : generate_random_silence_params cfg (rng.seeds gi)
      { st with is_silent := true, silence_start_time := now }
      with ⟨st3, o⟩
    rw [hg] at h
    cases o with
    | none =>
      exact executeFinal_reflect_canBack rng ev now canBack protestSuffix
        st3 q (by simpa [runCatch] using h)
    | some e => simp [runCatch] at h
  · exact executeFinal_reflect_canBack rng ev now canBack softSuffix
      st q (by simpa [runCatch] using h)

theorem executeCount_reflect_canBack (cfg : PokeConfig)
    (rng : RandOracle) (ev : PokeEvent) (now : Int) (canBack : Bool)
    (st : PokeState) (q : String)
    (h : (runCatch (executeCount cfg rng ev now canBack st)).2.action
        = PokeAction.reflectPoke q) :
    canBack = true := by
  unfold executeCount at h
  split_ifs at h with h0
  · rcases hg : generate_random_silence_params cfg (rng.seeds 0) st
      with ⟨st2, o⟩
    rw [hg] at h
    cases o with
    | none =>
      exact executeDecide_reflect_canBack cfg rng ev now canBack 1 st2 q h
    | some e => simp [runCatch] at h
  · exact executeDecide_reflect_canBack cfg rng ev now canBack 0 st q h

theorem executeBody_reflect_canBack (cfg : PokeConfig)
    (rng : RandOracle) (ev : PokeEvent) (now : Int) (st : PokeState)
    (q : String)
    (h : (runCatch (executeBody cfg rng ev now st)).2.action
        = PokeAction.reflectPoke q) :
    can_poke_back now st.last_poke_back_time = true := by
  unfold executeBody at h
  split_ifs at h <;>
    first
      | exact executeCount_reflect_canBack cfg rng ev now
          (can_poke_back now st.last_poke_back_time)
          { st with
              last_poke_received_time := now
              last_poke_time := now
              poke_count := st.poke_count + 1 } q h
      | simp [runCatch] at h

end AntiPoke

namespace AntiPoke

/-- Claim C10 counterexample: five seconds after its previous outbound
poke (within the ten-second cooldown) the agent emits a follow poke, so
the cooldown does not separate every pair of outbound pokes. -/
theorem follow_poke_inside_cooldown_cex :
    (execute ⟨120, 300, 5, 5, 180, 4⟩ ⟨true, true, true, fun _ => (0, 0)⟩
        ⟨true, "42", "7", "1"⟩ 100
        ⟨0, false, 0, 0, 0, 0, 95, 0⟩).2.action = PokeAction.followPoke "7" ∧
    (100 : Int) - 95 < POKE_BACK_COOLDOWN := by
  refine ⟨by decide, by decide⟩

/-- Claim C10 amended: the back-poke cooldown is enforced for
reflect-pokes only: whenever execute returns the reflect-poke action,
either no back-poke was ever sent or at least POKE_BACK_COOLDOWN has
elapsed since the previous one; follow pokes are not gated by the
cooldown (see the counterexample). -/
theorem reflect_poke_respects_cooldown (cfg : PokeConfig)
    (rng : RandOracle) (ev : PokeEvent) (now : Int) (st : PokeState)
    (q : String)
    (h0 : 0 ≤ st.last_poke_back_time)
    (h : (execute cfg rng ev now st).2.action = PokeAction.reflectPoke q) :
    st.last_poke_back_time = 0 ∨
      POKE_BACK_COOLDOWN ≤ now - st.last_poke_back_time := by
  have hcb : can_poke_back now st.last_poke_back_time = true := by
    by_cases hs : st.is_silent = true
    · by_cases hw : st.current_silence_duration < now - st.silence_start_time
      · rw [execute_silent_expired cfg rng ev now st hs hw] at h
        exact executeBody_reflect_canBack cfg rng ev now
          { st with is_silent := false, poke_count := 0 } q h
      · rw [execute_silent_blocked cfg rng ev now st hs (by omega)] at h
        simp at h
    · rw [execute_not_silent cfg rng ev now st
        (Bool.not_eq_true _ ▸ hs)] at h
      exact executeBody_reflect_canBack cfg rng ev now st q h
  exact (can_poke_back_iff now st.last_poke_back_time h0).mp hcb

/-- Witness for the amended C10: a reflect-poke emitted from a state
that never back-poked before. -/
theorem reflect_poke_respects_cooldown_witness :
    (0 : Int) ≤ 0 ∧
    (execute ⟨120, 300, 5, 9, 180, 4⟩ ⟨false, true, true, fun _ => (0, 0)⟩
        ⟨true, "42", "1", "1"⟩ 100
        ⟨1, false, 0, 0, 0, 5, 0, 0⟩).2.action = PokeAction.reflectPoke "42" ∧
    ((0 : Int) = 0 ∨ POKE_BACK_COOLDOWN ≤ (100 : Int) - 0) :=
  ⟨le_refl 0, by decide,
    reflect_poke_respects_cooldown ⟨120, 300, 5, 9, 180, 4⟩
      ⟨false, true, true, fun _ => (0, 0)⟩ ⟨true, "42", "1", "1"⟩ 100
      ⟨1, false, 0, 0, 0, 5, 0, 0⟩ "42" (by decide) (by decide)⟩

end AntiPoke

namespace AntiPoke

theorem decayInv_holds (s : DecaySys) (hs : DecayReach s) : DecayInv s := by
  induction hs with
  | start0 => exact Or.inl rfl
  | step s hs ih =>
    rcases ih with h0 | ⟨i, hi, hh⟩
    · have halive : (spawnLoop s).alive = [s.next] := by
        unfold spawnLoop
        rw [h0]
      unfold start_decay_task_if_needed
      cases hh : s.handle with
      | none => exact Or.inr ⟨s.next, halive, rfl⟩
      | some j =>
        have hnot : j ∉ s.alive := by
          rw [h0]
          simp
        show DecayInv (if j ∈ s.alive then s else spawnLoop s)
        rw [if_neg hnot]
        exact Or.inr ⟨s.next, halive, rfl⟩
    · unfold start_decay_task_if_needed
      rw [hh]
      show DecayInv (if i ∈ s.alive then s else spawnLoop s)
      rw [if_pos (hi ▸ List.mem_singleton.mpr rfl)]
      exact Or.inr ⟨i, hi, hh⟩
  | crash s i hs hmem ih =>
    rcases ih with h0 | ⟨j, hj, hh⟩
    · rw [h0] at hmem
      simp at hmem
    · left
      rw [hj] at hmem
      simp only [List.mem_singleton] at hmem
      show (s.alive.erase i) = []
      rw [hj, hmem]
      simp
  | cancel s i hs hmem ih =>
    rcases ih with h0 | ⟨j, hj, hh⟩
    · rw [h0] at hmem
      simp at hmem
    · left
      rw [hj] at hmem
      simp only [List.mem_singleton] at hmem
      show (s.alive.erase i) = []
      rw [hj, hmem]
      simp

/-- Claim C6: every reachable task-handle state has at most one live
decay-loop instance; starting is idempotent (a no-op while the handled
task is alive, a fresh launch when the handle is empty or its task is
done); and a crash of a live instance clears the handle, so the next
start launches a replacement (self-healing). -/
theorem decay_task_single_instance (s : DecaySys) (hs : DecayReach s) :
    s.alive.length ≤ 1 ∧
    (∀ i, s.handle = some i → i ∈ s.alive →
      start_decay_task_if_needed s = s) ∧
    ((s.handle = none ∨ ∃ i, s.handle = some i ∧ i ∉ s.alive) →
      start_decay_task_if_needed s = spawnLoop s) ∧
    (∀ i, i ∈ s.alive →
      (crashTask s i).handle = none ∧
      start_decay_task_if_needed (crashTask s i)
        = spawnLoop (crashTask s i)) := by
  refine ⟨?_, ?_, ?_, ?_⟩
  · rcases decayInv_holds s hs with h0 | ⟨i, hi, _⟩
    · rw [h0]
      simp
    · rw [hi]
      simp
  · intro i hh hm
    unfold start_decay_task_if_needed
    rw [hh]
    simp [hm]
  · rintro (hh | ⟨i, hh, hm⟩)
    · unfold start_decay_task_if_needed
      rw [hh]
    · unfold start_decay_task_if_needed
      rw [hh]
      simp [hm]
  · intro i hm
    exact ⟨rfl, rfl⟩

/-- Witness for C6 at the state reached by one start from the initial
state. -/
theorem decay_task_single_instance_witness :
    (start_decay_task_if_needed DecaySys.start0).alive.length ≤ 1 ∧
    (∀ i, (start_decay_task_if_needed DecaySys.start0).handle = some i →
      i ∈ (start_decay_task_if_needed DecaySys.start0).alive →
      start_decay_task_if_needed (start_decay_task_if_needed DecaySys.start0)
        = start_decay_task_if_needed DecaySys.start0) ∧
    (((start_decay_task_if_needed DecaySys.start0).handle = none ∨
        ∃ i, (start_decay_task_if_needed DecaySys.start0).handle = some i ∧
          i ∉ (start_decay_task_if_needed DecaySys.start0).alive) →
      start_decay_task_if_needed (start_decay_task_if_needed DecaySys.start0)
        = spawnLoop (start_decay_task_if_needed DecaySys.start0)) ∧
    (∀ i, i ∈ (start_decay_task_if_needed DecaySys.start0).alive →
      (crashTask (start_decay_task_if_needed DecaySys.start0) i).handle
          = none ∧
      start_decay_task_if_needed
          (crashTask (start_decay_task_if_needed DecaySys.start0) i)
        = spawnLoop
            (crashTask (start_decay_task_if_needed DecaySys.start0) i)) :=
  decay_task_single_instance (start_decay_task_if_needed DecaySys.start0)
    (DecayReach.step DecaySys.start0 DecayReach.start0)

end AntiPoke
